import Mathlib

/-!
Verification development for the dragorhast embedded bike-controller client.

The Python sources are shallowly embedded: Python strings become List Char,
Python float values that carry exact decimal data become rationals, fallible
Python evaluation becomes Except over a small error type mirroring the raised
exception classes, and mutable objects become explicit state records. The
numeric parsers first produce an exact decimal record and convert to a
rational in a final map step, so that they stay evaluable by kernel reduction.
-/

set_option maxRecDepth 8000

/-- Error classes raised by the embedded Python code. -/
inductive PyError
  | typeError
  | keyError
  | attributeError
  | nameError
  | authError (reason : String)
  | clientConnectorError
deriving DecidableEq

/-- Character test mirroring the digit check done by Python int and float
parsing: code points 48 to 57. -/
def isDigitCh (c : Char) : Bool := 48 ≤ c.toNat && c.toNat ≤ 57

/-- Numeric value of a digit character. -/
def digitVal (c : Char) : Nat := c.toNat - 48

/-- Decimal reading of a digit list, most significant first. -/
def natOfDigits (l : List Char) : Nat := l.foldl (fun a c => 10 * a + digitVal c) 0

/-- All characters are decimal digits. -/
def allDigits (l : List Char) : Bool := l.all isDigitCh

/-- Split a character list at the first occurrence of sep: the part before
it and, when sep occurs at all, the part after it. -/
def splitFirstAt (sep : Char) : List Char → List Char × Option (List Char)
  | [] => ([], none)
  | c :: rest =>
    if c == sep then ([], some rest)
    else
      let p := splitFirstAt sep rest
      (c :: p.1, p.2)

/-- Auxiliary accumulator for splitting at every occurrence of a separator. -/
def splitAllAux (sep : Char) : List Char → List Char → List (List Char)
  | [], acc => [acc.reverse]
  | c :: rest, acc =>
    if c == sep then acc.reverse :: splitAllAux sep rest []
    else splitAllAux sep rest (c :: acc)

/-- Embedding of the Python str.split method with a one character separator. -/
def splitAll (sep : Char) (l : List Char) : List (List Char) := splitAllAux sep l []

/-- Left pad with zero characters to the given width, the Python str.zfill on
an unsigned string. -/
def zfill (n : Nat) (l : List Char) : List Char :=
  List.replicate (n - l.length) '0' ++ l

/-- Embedding of Python int on a nonempty unsigned decimal digit string;
malformed input (a ValueError in Python) is none. -/
def pyNat (l : List Char) : Option Nat :=
  if l.isEmpty || !(allDigits l) then none else some (natOfDigits l)

/-- Embedding of Python int on a decimal string with an optional leading
minus sign. -/
def pyInt (l : List Char) : Option Int :=
  match l with
  | [] => none
  | c :: rest =>
    if c == '-' then (pyNat rest).map (fun n => -(n : Int))
    else (pyNat (c :: rest)).map (fun n => (n : Int))

/-- Exact decimal value: sign, integer part, fraction digits value and
fraction digit count. Kept separate from the rational so that parsing can be
evaluated by kernel reduction. -/
structure Dec where
  neg : Bool
  ip : Nat
  fp : Nat
  fl : Nat
deriving DecidableEq

/-- Rational value of an exact decimal. -/
def Dec.toRat (d : Dec) : ℚ :=
  (if d.neg then (-1 : ℚ) else 1) * ((d.ip : ℚ) + (d.fp : ℚ) / 10 ^ d.fl)

/-- Unsigned part of the Python float embedding: digits with at most one
decimal point, read exactly. -/
def pyFloatPosDec (l : List Char) : Option Dec :=
  match splitFirstAt '.' l with
  | (i, none) => if i.isEmpty || !(allDigits i) then none else some ⟨false, natOfDigits i, 0, 0⟩
  | (i, some f) =>
    if allDigits i && allDigits f && !(i.isEmpty && f.isEmpty) then
      some ⟨false, natOfDigits i, natOfDigits f, f.length⟩
    else none

/-- Embedding of Python float on the plain decimal strings this program
feeds it, with an optional leading minus sign; the exact decimal value is
used in place of the nearest binary double. -/
def pyFloatDec (l : List Char) : Option Dec :=
  match l with
  | [] => none
  | c :: rest =>
    if c == '-' then (pyFloatPosDec rest).map (fun d => { d with neg := true })
    else pyFloatPosDec (c :: rest)

/-- Sign, degrees and minutes as extracted by the coordinate parsers. -/
structure DegMin where
  neg : Bool
  deg : Int
  minutes : Dec
deriving DecidableEq

/-- Decimal degree value of a parsed coordinate: sign times degrees plus
minutes over 60, the formula shared by all the coordinate parsers. -/
def DegMin.toRat (x : DegMin) : ℚ :=
  (if x.neg then (-1 : ℚ) else 1) * ((x.deg : ℚ) + x.minutes.toRat / 60)

/-- Embedding of GPSReading._parse_latitude from src/embedded/fona808.py
(identical in the fona808.py of the Embedded System tree): strip an optional
sign, zero-fill the remainder to width 10, read the first two characters as
degrees via int and the rest as minutes via float. Indexing an empty string
and the int or float ValueError cases are none. -/
def parse_latitude_dm (lat : List Char) : Option DegMin :=
  match lat with
  | [] => none
  | c :: rest =>
    let neg : Bool := c == '-'
    let l : List Char := if neg then rest else c :: rest
    let l : List Char := zfill 10 l
    match pyInt (l.take 2), pyFloatDec (l.drop 2) with
    | some d, some m => some ⟨neg, d, m⟩
    | _, _ => none

/-- Decimal degree result of GPSReading._parse_latitude. -/
def parse_latitude (lat : List Char) : Option ℚ :=
  (parse_latitude_dm lat).map DegMin.toRat

/-- Embedding of GPSReading._parse_longitude from src/embedded/fona808.py:
like the latitude parser with three degree digits, except that the source
applies zfill 11 only inside the negative branch. -/
def parse_longitude_dm (lon : List Char) : Option DegMin :=
  match lon with
  | [] => none
  | c :: rest =>
    let neg : Bool := c == '-'
    let l : List Char := if neg then zfill 11 rest else c :: rest
    match pyInt (l.take 3), pyFloatDec (l.drop 3) with
    | some d, some m => some ⟨neg, d, m⟩
    | _, _ => none

/-- Decimal degree result of GPSReading._parse_longitude. -/
def parse_longitude (lon : List Char) : Option ℚ :=
  (parse_longitude_dm lon).map DegMin.toRat

/-- Embedding of GPSReading.parse_latitude from
fona808_gps.py in the Embedded System tree: strip an optional sign, split
once at the decimal point (the unpacking ValueError on zero or several
points is none), zero-fill the integer part to width 4, read the first two
characters as degrees and the remaining integer characters joined with the
fractional part as minutes. -/
def gps_parse_latitude_dm (lat : List Char) : Option DegMin :=
  match lat with
  | [] => none
  | c :: rest =>
    let neg : Bool := c == '-'
    let l : List Char := if neg then rest else c :: rest
    match splitFirstAt '.' l with
    | (_, none) => none
    | (left, some right) =>
      if (splitFirstAt '.' right).2.isSome then none
      else
        let left : List Char := zfill 4 left
        match pyInt (left.take 2), pyFloatDec (left.drop 2 ++ '.' :: right) with
        | some d, some m => some ⟨neg, d, m⟩
        | _, _ => none

/-- Decimal degree result of the fona808_gps.py parse_latitude. -/
def gps_parse_latitude (lat : List Char) : Option ℚ :=
  (gps_parse_latitude_dm lat).map DegMin.toRat


/-- Pattern is a leading segment of the second list. -/
def startsWithL (pat : List Char) (s : List Char) : Bool :=
  match pat, s with
  | [], _ => true
  | _ :: _, [] => false
  | p :: ps, c :: cs => p == c && startsWithL ps cs

/-- Pattern occurs as a contiguous segment of the second list, the Python
membership test of a substring in a string. -/
def hasSub (pat : List Char) (s : List Char) : Bool :=
  match s with
  | [] => startsWithL pat []
  | _ :: cs => startsWithL pat s || hasSub pat cs

/-- Embedding of the GPSStatus enumeration of fona808.py in the Embedded
System tree. -/
inductive GPSStatus
  | UNKNOWN
  | NO_FIX
  | FIX_2D
  | FIX_3D
deriving DecidableEq

/-- Embedding of GPSStatus.locked_states. -/
def GPSStatus.locked_states : List GPSStatus := [.FIX_2D, .FIX_3D]

/-- Character with code point 39, the single quote produced when Python
str is applied to a bytes value. -/
def squote : Char := Char.ofNat 39

/-- Character set of the strip call in GPSReading.__init__: the source
string has a backslash, r, a backslash, n and a quote, because it was
written against str applied to bytes. -/
def stripSet : List Char := ['\\', 'r', 'n', squote]

/-- Embedding of Python str.strip with an explicit character set: removes
leading and trailing characters belonging to the set. -/
def pyStrip (set : List Char) (l : List Char) : List Char :=
  ((l.dropWhile (fun c => set.contains c)).reverse.dropWhile
    (fun c => set.contains c)).reverse

/-- Embedding of GPSReading._parse_time shape checking: strptime with format
YYYYMMDDHHMMSS.000 requires fourteen digits, then a point and three zeros.
Calendar range checks of strptime are abstracted to this format check; the
value kept is the digit reading of the fourteen date characters. -/
def pyUtc (l : List Char) : Option Nat :=
  if l.length == 18 && allDigits (l.take 14) && (l.drop 14 == ['.', '0', '0', '0']) then
    some (natOfDigits (l.take 14))
  else none

/-- Exact decimal components of one parsed GPS line, before conversion of
the float fields to rationals. -/
structure GPSReadingRaw where
  longitude : DegMin
  latitude : DegMin
  altitude : Dec
  utc_time : Nat
  satellites_in_view : Int
  speed : Dec
  course : Dec
deriving DecidableEq

/-- Embedding of the GPSReading value object of fona808.py: longitude and
latitude in decimal degrees, altitude, utc time, satellite count, speed in
meters per second and course. -/
structure GPSReading where
  longitude : ℚ
  latitude : ℚ
  altitude : ℚ
  utc_time : Nat
  satellites_in_view : Int
  speed : ℚ
  course : ℚ
deriving DecidableEq

/-- Knots to meters per second factor 0.5144447 of GPSReading.__init__. -/
def knotsFactor : ℚ := 5144447 / 10000000

/-- Rational view of a raw parsed line, applying the decimal degree formula
to both coordinates and the knots conversion to the speed field. -/
def GPSReadingRaw.toReading (r : GPSReadingRaw) : GPSReading :=
  ⟨r.longitude.toRat, r.latitude.toRat, r.altitude.toRat, r.utc_time,
    r.satellites_in_view, r.speed.toRat * knotsFactor, r.course.toRat⟩

/-- Embedding of GPSReading.__init__ from fona808.py up to the rational
conversion: strip the bytes artifacts, drop everything before the first
space (the unpacking ValueError when no space exists is none), split the
remainder at commas into exactly nine fields and parse each field. Any
parse failure, a ValueError in Python, is none. -/
def GPSReading.initRaw (resp : List Char) : Option GPSReadingRaw :=
  match (splitFirstAt ' ' (pyStrip stripSet resp)).2 with
  | none => none
  | some values =>
    match splitAll ',' values with
    | [_tag, lon, lat, alt, utc, _ttff, num, speed, course] =>
      match parse_longitude_dm lon, parse_latitude_dm lat, pyFloatDec alt, pyUtc utc,
        pyInt num, pyFloatDec speed, pyFloatDec course with
      | some lo, some la, some al, some ut, some n, some sp, some co =>
        some ⟨lo, la, al, ut, n, sp, co⟩
      | _, _, _, _, _, _, _ => none
    | _ => none

/-- Parsed GPSReading produced by GPSReading.__init__ for a raw serial
response line. -/
def GPSReading.init (resp : List Char) : Option GPSReading :=
  (GPSReading.initRaw resp).map GPSReadingRaw.toReading

/-- Device state of the FONA808 wrapper of fona808.py in the Embedded
System tree: the stored _status field, initialised to UNKNOWN. -/
structure FONA808 where
  status : GPSStatus
deriving DecidableEq

/-- Literal matched for the UNKNOWN classification. -/
def locUnknown : List Char := "Location Unknown".toList

/-- Literal matched for the NO_FIX classification. -/
def locNotFix : List Char := "Location Not Fix".toList

/-- Literal matched for the FIX_2D classification. -/
def loc2DFix : List Char := "Location 2D Fix".toList

/-- Literal matched for the FIX_3D classification. -/
def loc3DFix : List Char := "Location 3D Fix".toList

/-- Embedding of FONA808.get_gps_status: classify the raw serial response
by substring membership in source order, store the classification in
_status when one matches, and return the stored status. The raw bytes read
from the serial port are the lines argument. -/
def FONA808.get_gps_status (dev : FONA808) (lines : List Char) : FONA808 × GPSStatus :=
  if hasSub locUnknown lines then (⟨.UNKNOWN⟩, .UNKNOWN)
  else if hasSub locNotFix lines then (⟨.NO_FIX⟩, .NO_FIX)
  else if hasSub loc2DFix lines then (⟨.FIX_2D⟩, .FIX_2D)
  else if hasSub loc3DFix lines then (⟨.FIX_3D⟩, .FIX_3D)
  else (dev, dev.status)

/-- Failure modes of get_location: the GPSLockError raise and the parse
errors of GPSReading.__init__. -/
inductive LocError
  | gpsLockError
  | parseError
deriving DecidableEq

/-- Embedding of FONA808.get_location of fona808.py in the Embedded System
tree: raise GPSLockError when the stored status is not a locked state,
otherwise issue the location query (whose serial response line is the resp
argument) and build a GPSReading from it. -/
def FONA808.get_location (dev : FONA808) (resp : List Char) : Except LocError GPSReading :=
  if dev.status ∈ GPSStatus.locked_states then
    match GPSReading.init resp with
    | some r => .ok r
    | none => .error .parseError
  else .error .gpsLockError

/-- Value held in the signing_key attribute of a Bike. The constructor of
bike.py assigns the class object ed25519.SigningKey itself, not an instance;
the other two constructors describe instances a repaired construction would
produce, so that the evaluation rules below can say what calls on them do. -/
inductive KeyVal
  | classRef
  | skInstance (seed : List Char)
  | vkInstance (seed : List Char)
deriving DecidableEq

/-- Result of an ed25519 signing call: the key seed and message it covers,
kept symbolic. -/
structure SigMsg where
  key : List Char
  msg : List Char
deriving DecidableEq

/-- Evaluation of the expression value.get_verifying_key() as used by the
public_key property of bike.py. On the class object the attribute is an
unbound function and the zero argument call raises TypeError (the self
parameter is missing); on a signing key instance it returns the verifying
key; a verifying key has no such attribute. -/
def get_verifying_key_call : KeyVal → Except PyError KeyVal
  | .classRef => .error .typeError
  | .skInstance s => .ok (.vkInstance s)
  | .vkInstance _ => .error .attributeError

/-- Scalar JSON value carried in protocol message fields. -/
inductive JScalar
  | s (v : String)
  | i (n : Int)
  | b (v : Bool)
  | null
deriving DecidableEq

/-- JSON object as an association list, the shape of every protocol
message exchanged by bike.py. -/
abbrev JObj := List (String × JScalar)

/-- Dictionary produced by a successful JsonRPCRequest().load call. -/
structure ValidRequest where
  jsonrpc : String
  method : String
  id : Option Int
  params : Option JScalar
deriving DecidableEq

/-- First value stored under a key of a JSON object. -/
def lookupKey (m : JObj) (k : String) : Option JScalar :=
  (m.find? (fun kv => kv.1 == k)).map Prod.snd

/-- Key set check of marshmallow load: any key outside the declared schema
fields raises ValidationError. -/
def knownRequestKeys (m : JObj) : Bool :=
  m.all (fun kv => kv.1 == "jsonrpc" || kv.1 == "method" || kv.1 == "params" || kv.1 == "id")

/-- Embedding of JsonRPCRequest().load from serializers.py: jsonrpc and
method are required string fields, id is an optional integer field, params
is an optional raw field, and unknown keys are rejected. A failed load, the
ValidationError caught by handle_request, is none. -/
def JsonRPCRequest_load (m : JObj) : Option ValidRequest :=
  if knownRequestKeys m then
    match lookupKey m "jsonrpc", lookupKey m "method", lookupKey m "id" with
    | some (.s j), some (.s me), none => some ⟨j, me, none, lookupKey m "params"⟩
    | some (.s j), some (.s me), some (.i n) => some ⟨j, me, some n, lookupKey m "params"⟩
    | _, _, _ => none
  else none

/-- Mutable state of the Bike entity of bike.py. The fields list exactly the
attributes the source ever assigns on self, plus the four coordinate
attributes that exist only as class level annotations: those are Option
values that start as none (reading an attribute that was never assigned
raises AttributeError in Python) and lockedLongitude and lockedLattitude
have no assignment anywhere in the repository. -/
structure BikeState where
  bid : Int
  seed : List Char
  signing_key : KeyVal
  locked : Bool
  totalDistance : ℚ
  socket : Option Unit
  battery : Nat
  longitude : Option ℚ
  lattitude : Option ℚ
  lockedLongitude : Option ℚ
  lockedLattitude : Option ℚ
deriving DecidableEq

/-- Embedding of Bike.__init__: stores bid and seed, assigns the class
object ed25519.SigningKey to signing_key without using the seed, sets
locked from the argument, zeroes totalDistance, leaves the socket None and
stores the randomly drawn battery value, passed here as a parameter. The
commands table maps lock and unlock to the two handlers and is embedded in
the dispatch of handle_request below. -/
def Bike.init (bid : Int) (seed : List Char) (locked : Bool) (battery : Nat) : BikeState :=
  ⟨bid, seed, .classRef, locked, 0, none, battery, none, none, none, none⟩

/-- Embedding of the public_key property of bike.py: it evaluates
self.signing_key.get_verifying_key() and returns the equality comparison of
self.signing_key with that result, a boolean, not a key. For the class
object stored by the constructor the inner call raises TypeError. -/
def Bike.public_key_eval (b : BikeState) : Except PyError Bool :=
  match get_verifying_key_call b.signing_key with
  | .error e => .error e
  | .ok vk => .ok (decide (b.signing_key = vk))

/-- Embedding of Bike.sign: self.signing_key.sign(data, encoding) with the
class object stored by the constructor is an unbound call whose required
message argument is missing, a TypeError; a bound call on an instance would
return the signature. -/
def Bike.sign_eval (b : BikeState) (data : List Char) : Except PyError SigMsg :=
  match b.signing_key with
  | .classRef => .error .typeError
  | .skInstance s => .ok ⟨s, data⟩
  | .vkInstance _ => .error .attributeError

/-- Response dictionary built by Bike.lock and Bike.unlock:
JsonRPCResponse().dump of jsonrpc 2.0, the echoed request id and the
boolean result; dump omits the missing error field. -/
def jsonRPCResponse_dump (rid : Int) (result : Bool) : JObj :=
  [("jsonrpc", .s "2.0"), ("id", .i rid), ("result", .b result)]

/-- Embedding of Bike.lock: set locked to true, then send the response over
self.socket. No anchor position is captured. When the socket is None the
attribute access on None raises AttributeError. The messages sent over the
session are returned alongside the new state. -/
def Bike.lock (b : BikeState) (request_id : Int) : Except PyError (BikeState × List JObj) :=
  let b2 := { b with locked := true }
  match b2.socket with
  | none => .error .attributeError
  | some _ => .ok (b2, [jsonRPCResponse_dump request_id true])

/-- Embedding of Bike.unlock: set locked to false and send the response. -/
def Bike.unlock (b : BikeState) (request_id : Int) : Except PyError (BikeState × List JObj) :=
  let b2 := { b with locked := false }
  match b2.socket with
  | none => .error .attributeError
  | some _ => .ok (b2, [jsonRPCResponse_dump request_id false])

/-- Embedding of Bike.handle_request: validate the message against the
request schema, silently dropping it on ValidationError; look the method up
in the commands table seeded with lock and unlock, dropping unknown
methods; then read the id key of the validated dictionary (a KeyError when
the optional id field was absent) and run the handler with it. -/
def Bike.handle_request (b : BikeState) (data : JObj) : Except PyError (BikeState × List JObj) :=
  match JsonRPCRequest_load data with
  | none => .ok (b, [])
  | some v =>
    if v.method == "lock" || v.method == "unlock" then
      match v.id with
      | none => .error .keyError
      | some rid =>
        if v.method == "lock" then Bike.lock b rid else Bike.unlock b rid
    else .ok (b, [])

/-- Embedding of Bike.updateCoordinates: assigns the current position
attributes. -/
def Bike.updateCoordinates (b : BikeState) (lon la : ℚ) : BikeState :=
  { b with longitude := some lon, lattitude := some la }

/-- Reading an instance attribute that only exists as a class annotation:
Python raises AttributeError until the attribute is assigned; the model
keeps such attributes as Option values. -/
def attrQ (v : Option ℚ) : Except PyError ℚ :=
  match v with
  | none => .error .attributeError
  | some q => .ok q

/-- Reading the local variable longitude inside GPS_update of
src/embedded/__main__.py: it is introduced only by an annotation and never
assigned, so reading it raises NameError. -/
def local_longitude_read : Except PyError ℚ := .error .nameError

/-- Reading the local variable lattitude inside GPS_update, also never
assigned. -/
def local_lattitude_read : Except PyError ℚ := .error .nameError

/-- Evaluation of the call bike.haversine(a, b, c, d) as written in
GPS_update: haversine is declared in bike.py with four parameters and no
self, so the bound method call passes five arguments and raises TypeError
for every argument tuple. -/
def bike_haversine_call (_b : BikeState) (_a1 _a2 _a3 _a4 : ℚ) : Except PyError ℚ :=
  .error .typeError

/-- Embedding of one iteration of GPS_update from src/embedded/__main__.py.
The print of the module global succeeds; when the bike is locked the guard
evaluates bike.lattitude and bike.longitude, the two unassigned locals and
the haversine call, in source order, and prints bikeStolen when the result
exceeds 5; the else branch of the source is attached to the while statement,
not to the if, so an unlocked iteration does nothing. The returned boolean
says whether the bikeStolen alert was printed; an error is an uncaught
exception that terminates the monitoring thread. -/
def GPS_update_tick (b : BikeState) : Except PyError Bool :=
  if b.locked then
    match attrQ b.lattitude with
    | .error e => .error e
    | .ok la =>
      match attrQ b.longitude with
      | .error e => .error e
      | .ok lo =>
        match local_longitude_read with
        | .error e => .error e
        | .ok x =>
          match local_lattitude_read with
          | .error e => .error e
          | .ok y =>
            match bike_haversine_call b la lo x y with
            | .error e => .error e
            | .ok d => .ok (decide (d > 5))
  else .ok false

/-- Evaluation of the expression pk.encode(RawEncoder) on the boolean that
the public_key property would return: a bool has no encode attribute, so
the access raises AttributeError (the name RawEncoder is also unbound in
src/embedded/__main__.py). -/
def bool_encode_call (_pk : Bool) : Except PyError (List Char) := .error .attributeError

/-- HTTP response abstraction for the auth ticket request: status code,
reason phrase and body bytes. -/
structure HttpResp where
  status : Nat
  reason : String
  body : List Char
deriving DecidableEq

/-- Embedding of create_ticket from src/embedded/__main__.py: evaluates
bike.public_key and its encode call to build the post data, performs the
post (none for the network outcome is a ClientConnectorError), raises
AuthError with reason public key not on server when the backend answers
with a non 200 status and the reason Identity not recognized, and returns
the challenge bytes otherwise. -/
def create_ticket (b : BikeState) (net : Option HttpResp) : Except PyError (List Char) :=
  match Bike.public_key_eval b with
  | .error e => .error e
  | .ok pk =>
    match bool_encode_call pk with
    | .error e => .error e
    | .ok _data =>
      match net with
      | none => .error .clientConnectorError
      | some resp =>
        if resp.status != 200 && resp.reason == "Identity not recognized." then
          .error (.authError "public key not on server")
        else .ok resp.body

/-- Evaluation of the attribute access .signature on the bytes returned by
an ed25519 sign call, as written in runner: bytes have no signature
attribute. -/
def sig_signature_attr (_s : SigMsg) : Except PyError SigMsg := .error .attributeError

/-- Evaluation of await bike_handler(session, bike, signature) in
src/embedded/__main__.py: bike_handler is a plain function that only
defines an inner coroutine and implicitly returns None, and awaiting None
raises TypeError. -/
def await_bike_handler (_b : BikeState) : Except PyError Unit := .error .typeError

/-- Evaluation of await sleep(2) inside the ClientConnectorError handler of
runner: sleep is time.sleep (the module imports from time import sleep), a
blocking call that returns None, and awaiting None raises TypeError. -/
def await_time_sleep (_secs : Nat) : Except PyError Unit := .error .typeError

/-- Embedding of register_bike from src/embedded/__main__.py: builds the
registration payload, whose public_key entry evaluates
bike.public_key.encode(RawEncoder); on success the serialized payload is
posted and the response ignored. -/
def register_bike (b : BikeState) : Except PyError Unit :=
  match Bike.public_key_eval b with
  | .error e => .error e
  | .ok pk =>
    match bool_encode_call pk with
    | .error e => .error e
    | .ok _data => .ok ()

/-- Outcome of one iteration of the while loop of runner. -/
inductive IterOutcome
  | continueLoop
  | backoffContinue (units : Nat)
  | fatalReturn
  | crashed (e : PyError)
deriving DecidableEq

/-- Embedding of the try body of one runner iteration: obtain the challenge
via create_ticket, sign it and read the signature attribute, then await the
bike_handler call. -/
def runner_try_body (b : BikeState) (net : Option HttpResp) : Except PyError Unit :=
  match create_ticket b net with
  | .error e => .error e
  | .ok challenge =>
    match Bike.sign_eval b challenge with
    | .error e => .error e
    | .ok sg =>
      match sig_signature_attr sg with
      | .error e => .error e
      | .ok _sig => await_bike_handler b

/-- Embedding of the except AuthError branch of runner: when the reason is
public key not on server (membership in the one element args tuple), run
register_bike and continue the loop, so the next iteration re-attempts
authentication; any other reason logs and returns, ending the Session
Manager permanently. An exception escaping register_bike terminates the
coroutine. -/
def auth_failure_branch (b : BikeState) (reason : String) : IterOutcome :=
  if reason == "public key not on server" then
    match register_bike b with
    | .ok _ => .continueLoop
    | .error e => .crashed e
  else .fatalReturn

/-- Embedding of the except ClientConnectorError branch of runner: log,
await sleep(2) and continue. Because the awaited sleep evaluation raises,
the crashed outcome is what the branch actually produces; backoffContinue 2
is what a successful branch would produce. -/
def transport_error_branch : IterOutcome :=
  match await_time_sleep 2 with
  | .ok _ => .backoffContinue 2
  | .error e => .crashed e

/-- Embedding of one iteration of the while loop of runner: run the try
body and dispatch on the exception class as the two except clauses do; any
other exception escapes and terminates the coroutine. -/
def runner_iter (b : BikeState) (net : Option HttpResp) : IterOutcome :=
  match runner_try_body b net with
  | .ok _ => .continueLoop
  | .error (.authError r) => auth_failure_branch b r
  | .error .clientConnectorError => transport_error_branch
  | .error e => .crashed e

/-- Lock request of the spec example, completed with the jsonrpc member the
request schema requires. -/
def lockReq7 : JObj := [("jsonrpc", .s "2.0"), ("method", .s "lock"), ("id", .i 7)]

/-- Request with a missing method member, the validation failure example. -/
def missingMethodMsg : JObj := [("jsonrpc", .s "2.0"), ("id", .i 1)]

/-- Well formed lock request without an id member; the schema declares id
as optional. -/
def lockNoIdMsg : JObj := [("jsonrpc", .s "2.0"), ("method", .s "lock")]

/-- Serial response line for a location query, as seen after Python str is
applied to the raw bytes: all numeric fields zero, nine satellites. -/
def sampleResp : List Char :=
  ['b', squote] ++
    "+CGPSINF: 0,00000.00000,0000.00000,0.0,20190101000000.000,30,9,0.0,0.0".toList ++
    ['\\', 'r', '\\', 'n', squote]

/-- Raw parse of sampleResp. -/
def sampleRaw : GPSReadingRaw :=
  ⟨⟨false, 0, ⟨false, 0, 0, 5⟩⟩, ⟨false, 0, ⟨false, 0, 0, 5⟩⟩, ⟨false, 0, 0, 1⟩,
    20190101000000, 9, ⟨false, 0, 0, 1⟩, ⟨false, 0, 0, 1⟩⟩


/-- Digit characters differ from the minus sign. -/
theorem digit_beq_dash_false (c : Char) (h : isDigitCh c = true) : (c == '-') = false := by
  cases hc : c == '-' with
  | false => rfl
  | true =>
    have hc2 : c = '-' := eq_of_beq hc
    subst hc2
    exact absurd h (by decide)

/-- Digit characters differ from the decimal point. -/
theorem digit_beq_dot_false (c : Char) (h : isDigitCh c = true) : (c == '.') = false := by
  cases hc : c == '.' with
  | false => rfl
  | true =>
    have hc2 : c = '.' := eq_of_beq hc
    subst hc2
    exact absurd h (by decide)

/-- Structural evaluation of the fixed width latitude parser on a string in
the full DDMM.MMMMM format with an optional sign. -/
theorem parse_latitude_dm_fixed_width (neg : Bool) (c1 c2 c3 c4 f1 f2 f3 f4 f5 : Char)
    (h1 : isDigitCh c1 = true) (h2 : isDigitCh c2 = true) (h3 : isDigitCh c3 = true)
    (h4 : isDigitCh c4 = true) (h5 : isDigitCh f1 = true) (h6 : isDigitCh f2 = true)
    (h7 : isDigitCh f3 = true) (h8 : isDigitCh f4 = true) (h9 : isDigitCh f5 = true) :
    parse_latitude_dm ((if neg then ['-'] else []) ++ [c1, c2, c3, c4, '.', f1, f2, f3, f4, f5]) =
      some ⟨neg, (natOfDigits [c1, c2] : Int),
        ⟨false, natOfDigits [c3, c4], natOfDigits [f1, f2, f3, f4, f5], 5⟩⟩ := by
  cases neg <;>
    simp [parse_latitude_dm, zfill, pyInt, pyNat, pyFloatDec, pyFloatPosDec, splitFirstAt,
      allDigits, digit_beq_dash_false, digit_beq_dot_false, h1, h2, h3, h4, h5, h6, h7, h8, h9,
      natOfDigits]

/-- C1: handling the lock request with id 7 on a bike with an active
session sets locked to true and sends back exactly the response with
jsonrpc 2.0, the echoed id 7 and result true, but contrary to the claim it
does not set any anchor: Bike.lock assigns no position, and the
lockedLongitude and lockedLattitude attributes stay exactly as before (they
are never assigned anywhere in the repository). -/
theorem lock_request_locks_but_no_anchor (b : BikeState) :
    Bike.handle_request { b with socket := some () } lockReq7 =
      .ok ({ b with socket := some (), locked := true }, [jsonRPCResponse_dump 7 true]) ∧
    ({ b with socket := some (), locked := true } : BikeState).lockedLongitude =
      b.lockedLongitude ∧
    ({ b with socket := some (), locked := true } : BikeState).lockedLattitude =
      b.lockedLattitude :=
  ⟨rfl, rfl, rfl⟩

/-- C2: the geofence iteration of GPS_update never prints the bikeStolen
alert, and on every locked bike state it raises an uncaught exception that
terminates the monitoring thread: evaluating bike.lattitude or
bike.longitude raises AttributeError when unassigned, the local variables
longitude and lattitude always raise NameError, and the haversine call
itself would raise TypeError; the claim that each tick computes the anchor
distance and alerts while monitoring continues fails on the code. -/
theorem gps_update_tick_never_alerts (b : BikeState) :
    GPS_update_tick b ≠ .ok true ∧
    ∃ e, GPS_update_tick { b with locked := true } = .error e := by
  constructor
  · cases hl : b.locked with
    | false => simp [GPS_update_tick, hl]
    | true =>
      cases hla : b.lattitude <;> cases hlo : b.longitude <;>
        simp [GPS_update_tick, hl, hla, hlo, attrQ, local_longitude_read]
  · cases hla : b.lattitude with
    | none => exact ⟨.attributeError, by simp [GPS_update_tick, attrQ, hla]⟩
    | some la =>
      cases hlo : b.longitude with
      | none => exact ⟨.attributeError, by simp [GPS_update_tick, attrQ, hla, hlo]⟩
      | some lo =>
        exact ⟨.nameError, by simp [GPS_update_tick, attrQ, hla, hlo, local_longitude_read]⟩

/-- C2 witness at a concrete locked bike state. -/
theorem gps_update_tick_never_alerts_witness :
    GPS_update_tick (Bike.init 117 [] true 50) ≠ .ok true ∧
    ∃ e, GPS_update_tick { Bike.init 117 [] true 50 with locked := true } = .error e :=
  gps_update_tick_never_alerts (Bike.init 117 [] true 50)

/-- C3: the signing_key attribute stored by Bike.__init__ is the class
object ed25519.SigningKey regardless of the seed argument, so no keypair is
derived from the seed; evaluating the public_key property raises TypeError
(the unbound get_verifying_key call has no instance), so no verifying key
is ever produced or sent to the backend; and Bike.sign raises TypeError for
the same reason, so the challenge is never signed by a seed derived key. -/
theorem signing_key_not_seed_derived (bid : Int) (s1 s2 : List Char) (lk : Bool)
    (bat : Nat) (data : List Char) :
    (Bike.init bid s1 lk bat).signing_key = (Bike.init bid s2 lk bat).signing_key ∧
    Bike.public_key_eval (Bike.init bid s1 lk bat) = .error .typeError ∧
    Bike.sign_eval (Bike.init bid s1 lk bat) data = .error .typeError :=
  ⟨rfl, rfl, rfl⟩

/-- C4: the claimed disconnect, backoff 2, re-authenticate forever cycle
does not exist in the code. Every runner iteration on a bike built by the
constructor crashes with TypeError already inside create_ticket (the
public_key property), before any connection, so the Connected state is
unreachable; and the except ClientConnectorError handler itself crashes
with TypeError (await of the None returned by the blocking time.sleep)
instead of producing the backoff and continuing. -/
theorem runner_transport_retry_broken :
    (∀ (bid : Int) (seed : List Char) (lk : Bool) (bat : Nat) (net : Option HttpResp),
      runner_iter (Bike.init bid seed lk bat) net = .crashed .typeError) ∧
    transport_error_branch = .crashed .typeError :=
  ⟨fun _ _ _ _ _ => rfl, rfl⟩

/-- C5: on an AuthError whose reason is public key not on server the
handler calls register_bike, but register_bike crashes with TypeError while
evaluating bike.public_key for the registration payload, so no registration
request is posted and no re-authentication follows, the coroutine
terminates; on any other reason the handler returns, ending the Session
Manager permanently, which is the half of the claim the code satisfies. -/
theorem auth_failure_registration_crashes (b : BikeState) (r : String) (bid : Int)
    (seed : List Char) (lk : Bool) (bat : Nat) :
    auth_failure_branch (Bike.init bid seed lk bat) "public key not on server" =
      .crashed .typeError ∧
    (r = "public key not on server" ∨ auth_failure_branch b r = .fatalReturn) := by
  constructor
  · rfl
  · by_cases h : r = "public key not on server"
    · exact Or.inl h
    · refine Or.inr ?_
      simp only [auth_failure_branch, beq_iff_eq, if_neg h]

/-- C6 amended: for every latitude string in the full fixed width format
DDMM.MMMMM with five fraction digits and an optional sign, the fixed width
parser of fona808.py returns sign times (two leading degree digits plus
minutes over 60). The nine character example string 5213.2354 of the claim
decodes to 52 + 13.2354 / 60 under the split based parse_latitude of
fona808_gps.py, while the fixed width parser needs the full width string
5213.23540 to produce that value. -/
theorem parse_latitude_fixed_width_amended :
    (∀ (neg : Bool) (c1 c2 c3 c4 f1 f2 f3 f4 f5 : Char),
      isDigitCh c1 = true → isDigitCh c2 = true → isDigitCh c3 = true →
      isDigitCh c4 = true → isDigitCh f1 = true → isDigitCh f2 = true →
      isDigitCh f3 = true → isDigitCh f4 = true → isDigitCh f5 = true →
      parse_latitude ((if neg then ['-'] else []) ++ [c1, c2, c3, c4, '.', f1, f2, f3, f4, f5]) =
        some ((if neg then (-1 : ℚ) else 1) *
          ((natOfDigits [c1, c2] : ℚ) +
            ((natOfDigits [c3, c4] : ℚ) +
              (natOfDigits [f1, f2, f3, f4, f5] : ℚ) / 10 ^ 5) / 60))) ∧
    gps_parse_latitude ("5213.2354".toList) = some (52 + (13 + 2354 / 10 ^ 4 : ℚ) / 60) ∧
    parse_latitude ("5213.23540".toList) = some (52 + (13 + 23540 / 10 ^ 5 : ℚ) / 60) := by
  refine ⟨?_, ?_, ?_⟩
  · intro neg c1 c2 c3 c4 f1 f2 f3 f4 f5 h1 h2 h3 h4 h5 h6 h7 h8 h9
    rw [parse_latitude,
      parse_latitude_dm_fixed_width neg c1 c2 c3 c4 f1 f2 f3 f4 f5 h1 h2 h3 h4 h5 h6 h7 h8 h9]
    cases neg <;> simp [DegMin.toRat, Dec.toRat]
  · have h : gps_parse_latitude_dm ("5213.2354".toList) =
        some ⟨false, 52, ⟨false, 13, 2354, 4⟩⟩ := by decide
    rw [gps_parse_latitude, h]
    simp [DegMin.toRat, Dec.toRat]
  · have h : parse_latitude_dm ("5213.23540".toList) =
        some ⟨false, 52, ⟨false, 13, 23540, 5⟩⟩ := by decide
    rw [parse_latitude, h]
    simp [DegMin.toRat, Dec.toRat]

/-- C6 witness: the general fixed width statement applied to the concrete
full width string 5213.23540. -/
theorem parse_latitude_fixed_width_amended_witness :
    parse_latitude ((if false then ['-'] else []) ++
        ['5', '2', '1', '3', '.', '2', '3', '5', '4', '0']) =
      some ((if false then (-1 : ℚ) else 1) *
        ((natOfDigits ['5', '2'] : ℚ) +
          ((natOfDigits ['1', '3'] : ℚ) +
            (natOfDigits ['2', '3', '5', '4', '0'] : ℚ) / 10 ^ 5) / 60)) :=
  parse_latitude_fixed_width_amended.1 false '5' '2' '1' '3' '2' '3' '5' '4' '0'
    (by decide) (by decide) (by decide) (by decide) (by decide) (by decide) (by decide)
    (by decide) (by decide)

/-- C6 counterexample: the claim says the unsigned string 5213.2354 decodes
to about 52.22059, but the fixed width parser of fona808.py zero-fills it
to 05213.2354 and returns 5 + 213.2354 / 60, below 9, far outside any
floating tolerance of the claimed value, which exceeds 52. -/
theorem parse_latitude_short_example_false :
    parse_latitude ("5213.2354".toList) = some (5 + (213 + 2354 / 10 ^ 4 : ℚ) / 60) ∧
    (5 + (213 + 2354 / 10 ^ 4 : ℚ) / 60) < 9 ∧
    52 < 52 + (13 + 2354 / 10 ^ 4 : ℚ) / 60 := by
  refine ⟨?_, by norm_num, by norm_num⟩
  have h : parse_latitude_dm ("5213.2354".toList) =
      some ⟨false, 5, ⟨false, 213, 2354, 4⟩⟩ := by decide
  rw [parse_latitude, h]
  simp [DegMin.toRat, Dec.toRat]

/-- C7: get_location of the FONA808 wrapper raises GPSLockError whenever
the stored status is not one of the locked states FIX_2D and FIX_3D, and
when the stored status is a locked state it issues the location query and
returns the GPSReading parsed from the response line. -/
theorem get_location_fix_gate (dev : FONA808) (resp : List Char) :
    (dev.status ∉ GPSStatus.locked_states →
      FONA808.get_location dev resp = .error .gpsLockError) ∧
    (dev.status ∈ GPSStatus.locked_states →
      ∀ r, GPSReading.init resp = some r → FONA808.get_location dev resp = .ok r) := by
  constructor
  · intro h
    simp [FONA808.get_location, h]
  · intro h r hr
    simp [FONA808.get_location, h, hr]

/-- C7 witness: with status UNKNOWN the call fails with GPSLockError on the
sample response; with status FIX_3D it returns the parsed reading. -/
theorem get_location_fix_gate_witness :
    FONA808.get_location ⟨.UNKNOWN⟩ sampleResp = .error .gpsLockError ∧
    FONA808.get_location ⟨.FIX_3D⟩ sampleResp = .ok sampleRaw.toReading := by
  constructor
  · exact (get_location_fix_gate ⟨.UNKNOWN⟩ sampleResp).1 (by decide)
  · refine (get_location_fix_gate ⟨.FIX_3D⟩ sampleResp).2 (by decide) sampleRaw.toReading ?_
    have h : GPSReading.initRaw sampleResp = some sampleRaw := by decide
    simp [GPSReading.init, h]

/-- C8: get_gps_status classifies the raw status response by matching the
four literal substrings in source order into the four status values, and
when no recognizable substring is present the previously stored status is
retained and returned unchanged. -/
theorem get_gps_status_classification (dev : FONA808) (lines : List Char) :
    (hasSub locUnknown lines = false → hasSub locNotFix lines = false →
      hasSub loc2DFix lines = false → hasSub loc3DFix lines = false →
      FONA808.get_gps_status dev lines = (dev, dev.status)) ∧
    (hasSub locUnknown lines = true →
      FONA808.get_gps_status dev lines = (⟨.UNKNOWN⟩, .UNKNOWN)) ∧
    (hasSub locUnknown lines = false → hasSub locNotFix lines = true →
      FONA808.get_gps_status dev lines = (⟨.NO_FIX⟩, .NO_FIX)) ∧
    (hasSub locUnknown lines = false → hasSub locNotFix lines = false →
      hasSub loc2DFix lines = true →
      FONA808.get_gps_status dev lines = (⟨.FIX_2D⟩, .FIX_2D)) ∧
    (hasSub locUnknown lines = false → hasSub locNotFix lines = false →
      hasSub loc2DFix lines = false → hasSub loc3DFix lines = true →
      FONA808.get_gps_status dev lines = (⟨.FIX_3D⟩, .FIX_3D)) := by
  refine ⟨?_, ?_, ?_, ?_, ?_⟩ <;> intros <;> simp_all [FONA808.get_gps_status]

/-- C8 witness: a response containing the 3D literal classifies as FIX_3D
from any prior status, and an unrecognizable response leaves the prior
status in place and returns it. -/
theorem get_gps_status_classification_witness :
    FONA808.get_gps_status ⟨.NO_FIX⟩ ("AT+CGPSSTATUS?: Location 3D Fix".toList) =
      (⟨.FIX_3D⟩, .FIX_3D) ∧
    FONA808.get_gps_status ⟨.FIX_2D⟩ ("garbled serial noise".toList) =
      (⟨.FIX_2D⟩, .FIX_2D) := by
  constructor
  · exact (get_gps_status_classification ⟨.NO_FIX⟩ _).2.2.2.2 (by decide) (by decide)
      (by decide) (by decide)
  · exact (get_gps_status_classification ⟨.FIX_2D⟩ _).1 (by decide) (by decide)
      (by decide) (by decide)

/-- C9: every inbound message that fails validation against the request
schema, in particular any message with a missing method member, is silently
dropped by handle_request: no response is emitted and the bike state is
returned unchanged. -/
theorem handle_request_invalid_dropped (b : BikeState) (data : JObj)
    (h : JsonRPCRequest_load data = none) :
    Bike.handle_request b data = .ok (b, []) := by
  simp [Bike.handle_request, h]

/-- C9 witness: a request with jsonrpc and id but no method fails the load
and is dropped with the state unchanged. -/
theorem handle_request_invalid_dropped_witness :
    JsonRPCRequest_load missingMethodMsg = none ∧
    Bike.handle_request (Bike.init 117 [] true 50) missingMethodMsg =
      .ok (Bike.init 117 [] true 50, []) :=
  ⟨by decide, handle_request_invalid_dropped (Bike.init 117 [] true 50) missingMethodMsg
    (by decide)⟩

/-- C10: the well formed lock request without an id member passes the
request schema validation, since the schema declares id as an optional
field, and handle_request then raises an unhandled KeyError when it reads
the id member of the validated dictionary, so request handling is not total
over the inputs the validator accepts. -/
theorem handle_request_missing_id_keyerror (b : BikeState) :
    JsonRPCRequest_load lockNoIdMsg = some ⟨"2.0", "lock", none, none⟩ ∧
    Bike.handle_request b lockNoIdMsg = .error .keyError :=
  ⟨by decide, rfl⟩
